import Mathlib

/-!
Verification of the expense-tracker frontend (`src/lib/api.ts`,
`src/lib/types.ts`, `src/components/ExpenseForm`, `src/components/ExpenseList.tsx`).

The JavaScript/TypeScript code is shallowly embedded: JS numbers carrying
currency amounts become `Rat`, JS strings become `String`, absent (`undefined`)
fields become `Option`, and JS truthiness tests are spelled out explicitly
(`"" `, `0`, `undefined`, `[]`-join-to-`""` are falsy).  Nondeterministic
inputs (freshly generated idempotency keys, HTTP responses) are passed in as
explicit parameters.
-/

set_option autoImplicit false

namespace ExpenseFrontend

/-! ### JS built-ins used by the code -/

/-- JS `Array.prototype.join(sep)`: the elements concatenated with `sep`
between consecutive elements (empty string for the empty array). -/
def joinWith (sep : String) : List String → String
  | [] => ""
  | [x] => x
  | x :: y :: xs => x ++ sep ++ joinWith sep (y :: xs)

/-- Decimal digit character for `d < 10` (ASCII `48 + d`). -/
def digitChar (d : Nat) : Char := Char.ofNat (48 + d)

/-- Decimal digits of `n`, least significant first; the first argument is
fuel (any fuel at least the digit count of `n` is enough). -/
def natToRevDigits : Nat → Nat → List Char
  | 0, _ => []
  | fuel + 1, n => if n = 0 then [] else digitChar (n % 10) :: natToRevDigits fuel (n / 10)

/-- JS `Number.prototype.toString()` for a nonnegative integer. -/
def natToStr (n : Nat) : String :=
  if n = 0 then "0" else String.mk (natToRevDigits n n).reverse

/-- Two-digit zero-padded rendering, used for the fractional part of
`toFixed(2)`. -/
def pad2 (n : Nat) : String :=
  if n < 10 then "0" ++ natToStr n else natToStr n

/-- JS `Number.prototype.toFixed(2)`: the amount rendered with exactly two
fraction digits (round half away from zero on the rational model).  The cent
count is `round(|q| * 100)` computed on the reduced fraction:
`(|num| * 200 + den) / (2 * den)` in integer arithmetic. -/
def toFixed2 (q : Rat) : String :=
  ((if q.num < 0 then "-" else "")
      ++ natToStr ((q.num.natAbs * 200 + q.den) / (2 * q.den) / 100))
    ++ "." ++ pad2 ((q.num.natAbs * 200 + q.den) / (2 * q.den) % 100)

/-- JS `String.prototype.trim()`: leading and trailing whitespace removed. -/
def jsTrim (s : String) : String :=
  String.mk (((s.toList.dropWhile Char.isWhitespace).reverse.dropWhile
    Char.isWhitespace).reverse)

/-- Numeric value of a list of decimal digit characters. -/
def digitsVal (l : List Char) : Nat :=
  l.foldl (fun a c => a * 10 + (c.toNat - 48)) 0

/-- Optional leading sign of a JS numeric literal. -/
def parseSign : List Char → Int × List Char
  | '-' :: t => (-1, t)
  | '+' :: t => (1, t)
  | cs => (1, cs)

/-- JS `parseFloat` on the decimal-literal fragment the form can produce:
optional leading spaces and sign, integer digits, optional `.` and fraction
digits; `none` models `NaN` (no digits at all). -/
def parseFloatModel (s : String) : Option Rat :=
  let cs := s.toList.dropWhile (fun c => c = ' ')
  let sc := parseSign cs
  let intDigits := sc.2.takeWhile Char.isDigit
  let rest := sc.2.dropWhile Char.isDigit
  let fracDigits : List Char :=
    match rest with
    | '.' :: t => t.takeWhile Char.isDigit
    | _ => []
  if intDigits.isEmpty && fracDigits.isEmpty then none
  else
    some (mkRat (sc.1 * (digitsVal (intDigits ++ fracDigits) : Int))
      ((10 : Nat) ^ fracDigits.length))

/-- JS truthiness of an optional string (`undefined` and `""` are falsy). -/
def jsTruthyS : Option String → Bool
  | some s => decide (s ≠ "")
  | none => false

/-- JS truthiness of an optional number (`undefined` and `0` are falsy). -/
def jsTruthyN : Option Nat → Bool
  | some n => decide (n ≠ 0)
  | none => false

/-- JS `a || b` where `a` is an optional string: `b` when `a` is absent or
empty. -/
def orFalsy (a : Option String) (b : String) : String :=
  match a with
  | some s => if s = "" then b else s
  | none => b

/-! ### `src/lib/types.ts` -/

/-- The `Expense` record returned by the API. -/
structure Expense where
  id : String
  amount : Rat
  category : String
  description : String
  date : String
  created_at : String
deriving Repr, DecidableEq

/-- The `CreateExpenseInput` request body (also used by the update request,
which sends it without an `idempotency_key`). -/
structure CreateExpenseInput where
  amount : Rat
  category : String
  description : String
  date : String
  idempotency_key : Option String
deriving Repr, DecidableEq

/-- The fixed `CATEGORIES` enumeration of `src/lib/types.ts`. -/
def CATEGORIES : List String :=
  ["Food", "Transport", "Entertainment", "Shopping", "Bills",
   "Healthcare", "Education", "Other"]

/-- The parsed JSON body of an API response, viewed through the `ApiError`
shape the client reads on failure (`error` and `details` may each be absent
at runtime). -/
structure ApiErrorBody where
  error : Option String
  details : Option (List String)
deriving Repr, DecidableEq

/-! ### `src/lib/api.ts` -/

/-- JS `response.ok`: status in `[200, 300)`. -/
def respOk (status : Nat) : Bool := decide (200 ≤ status ∧ status < 300)

/-- The message of the `Error` thrown by `ApiClient.request` on a non-ok
response: `error.details?.join(', ') || error.error || 'Request failed'`. -/
def errorMessage (e : ApiErrorBody) : String :=
  orFalsy (e.details.map (joinWith ", ")) (orFalsy e.error "Request failed")

/-- Outcome of `ApiClient.request`: resolve with no value (204), resolve with
the parsed body, reject because the body failed to parse as JSON, or reject
with a thrown `Error` message. -/
inductive ReqOutcome where
  | noContent : ReqOutcome
  | success : ApiErrorBody → ReqOutcome
  | jsonError : ReqOutcome
  | thrown : String → ReqOutcome
deriving Repr, DecidableEq

/-- `ApiClient.request` as a function of the response status and its parsed
JSON body (`none` = the body is not valid JSON, so `response.json()`
rejects). The 204 check precedes any body parsing. -/
def request (status : Nat) (body : Option ApiErrorBody) : ReqOutcome :=
  if status = 204 then ReqOutcome.noContent
  else
    match body with
    | none => ReqOutcome.jsonError
    | some data =>
        if respOk status then ReqOutcome.success data
        else ReqOutcome.thrown (errorMessage data)

/-- An outcome is a rejection (the promise throws rather than returning a
record). -/
def isThrown : ReqOutcome → Bool
  | ReqOutcome.noContent => false
  | ReqOutcome.success _ => false
  | ReqOutcome.jsonError => true
  | ReqOutcome.thrown _ => true

/-- The optional query parameters of `ApiClient.getExpenses`. -/
structure GetExpensesParams where
  category : Option String
  sort : Option String
  page : Option Nat
  limit : Option Nat
deriving Repr, DecidableEq

/-- The `URLSearchParams` built by `getExpenses`: each of `category`, `sort`,
`page`, `limit` is set, in that order, only when its value is truthy. -/
def searchParamsList (p : GetExpensesParams) : List (String × String) :=
  (match p.category with
   | some c => if c ≠ "" then [("category", c)] else []
   | none => []) ++
  (match p.sort with
   | some s => if s ≠ "" then [("sort", s)] else []
   | none => []) ++
  (match p.page with
   | some n => if n ≠ 0 then [("page", natToStr n)] else []
   | none => []) ++
  (match p.limit with
   | some n => if n ≠ 0 then [("limit", natToStr n)] else []
   | none => [])

/-- `searchParams.toString()`. -/
def qsString (p : GetExpensesParams) : String :=
  joinWith "&" ((searchParamsList p).map (fun kv => kv.1 ++ "=" ++ kv.2))

/-- The endpoint `getExpenses` requests:
`queryString ? "/expenses?" + queryString : "/expenses"`. -/
def getExpensesEndpoint (p : GetExpensesParams) : String :=
  if qsString p = "" then "/expenses" else "/expenses?" ++ qsString p

/-- The CSV header row of `exportToCSV`. -/
def csvHeaders : List String := ["Date", "Description", "Category", "Amount (₹)"]

/-- One CSV data row of `exportToCSV`: date, the description wrapped in
double quotes with embedded double quotes doubled, category, and the amount
via `toFixed(2)`. -/
def csvRow (e : Expense) : List String :=
  [e.date, "\"" ++ e.description.replace "\"" "\"\"" ++ "\"",
   e.category, toFixed2 e.amount]

/-- The CSV text built by `exportToCSV`:
`[headers.join(','), ...rows.map(r => r.join(','))].join('\n')`. -/
def exportToCSVText (expenses : List Expense) : String :=
  joinWith "\n"
    (joinWith "," csvHeaders :: expenses.map (fun e => joinWith "," (csvRow e)))

/-! ### `ExpenseForm` (`src/unnamed/part_001`) -/

/-- The amount validation of `handleSubmit`: `parseFloat` succeeds and the
value is strictly positive (`isNaN(amountNum) || amountNum <= 0` rejects). -/
def amountValid (s : String) : Bool :=
  match parseFloatModel s with
  | none => false
  | some q => decide (0 < q)

/-- The create request body `handleSubmit` sends, as a function of the form
state and the idempotency key in use; `none` when a validation check makes
`handleSubmit` return early without sending anything. -/
def handleSubmitRequest (amount category description date key : String) :
    Option CreateExpenseInput :=
  match parseFloatModel amount with
  | none => none
  | some amountNum =>
      if amountNum ≤ 0 then none
      else if jsTrim description = "" then none
      else if date = "" then none
      else some { amount := amountNum, category := category,
                  description := jsTrim description, date := date,
                  idempotency_key := some key }

/-- Line 48 of the form: `currentIdempotencyKey || generateIdempotencyKey()`;
the stored key when one exists, otherwise the freshly generated one. -/
def submitKey (cur : Option String) (fresh : String) : String :=
  cur.getD fresh

/-- The idempotency keys sent by a sequence of submission attempts.  Each
attempt is a pair of the key `generateIdempotencyKey` would freshly produce
and whether `api.createExpense` succeeds.  On failure the key used is stored
(`setCurrentIdempotencyKey`); on success `resetForm` clears it. -/
def sentKeys : Option String → List (String × Bool) → List String
  | _, [] => []
  | cur, a :: rest =>
      submitKey cur a.1 ::
        sentKeys (if a.2 then none else some (submitKey cur a.1)) rest

/-- The stored `currentIdempotencyKey` after a sequence of attempts. -/
def finalKey : Option String → List (String × Bool) → Option String
  | cur, [] => cur
  | cur, a :: rest =>
      finalKey (if a.2 then none else some (submitKey cur a.1)) rest

/-! ### `ExpenseList` (`src/components/ExpenseList.tsx`) -/

/-- `expenses.reduce((sum, expense) => sum + expense.amount, 0)`: the total
shown over the currently loaded page. -/
def listTotal (expenses : List Expense) : Rat :=
  expenses.foldl (fun sum e => sum + e.amount) 0

/-- `expenses.reduce((acc, e) => { acc[e.category] = (acc[e.category] || 0) +
e.amount; return acc }, {})`, the JS object modelled as a total function with
default `0` (matching the `|| 0` read). -/
def categoryTotals (expenses : List Expense) : String → Rat :=
  expenses.foldl
    (fun acc e => fun c => if c = e.category then acc e.category + e.amount else acc c)
    (fun _ => 0)

/-- The edit-modal form state. -/
structure EditFormState where
  amount : String
  category : String
  description : String
  date : String
deriving Repr, DecidableEq

/-- The update request body `handleEditSubmit` sends (`none` when the amount
check makes it return early); it trims the description but applies no other
validation to it, and sends no idempotency key. -/
def handleEditSubmitRequest (f : EditFormState) : Option CreateExpenseInput :=
  match parseFloatModel f.amount with
  | none => none
  | some amountNum =>
      if amountNum ≤ 0 then none
      else some { amount := amountNum, category := f.category,
                  description := jsTrim f.description, date := f.date,
                  idempotency_key := none }

/-- The params `handleExportCSV` passes to `getExpenses`:
`{ category: categoryFilter || undefined, sort: sortOrder }` — no page, no
limit. -/
def handleExportCSVParams (categoryFilter sortOrder : String) :
    GetExpensesParams :=
  { category := if categoryFilter = "" then none else some categoryFilter,
    sort := some sortOrder, page := none, limit := none }

/-- The category option values rendered by the create form
(`CATEGORIES.map(cat => <option value={cat}>)`). -/
def expenseFormCategoryOptions : List String := CATEGORIES.map (fun cat => cat)

/-- The category option values rendered by the edit modal. -/
def editModalCategoryOptions : List String := CATEGORIES.map (fun cat => cat)

/-! ### Theorems -/

/-- Helper for C1: along a run of failing attempts starting with stored key
`k`, every attempt sends `k`, and a final successful attempt clears the
stored key. -/
theorem sentKeys_stored_run (rest : List String) (k kLast : String) :
    sentKeys (some k) (rest.map (fun f => (f, false)) ++ [(kLast, true)])
        = List.replicate (rest.length + 1) k ∧
      finalKey (some k) (rest.map (fun f => (f, false)) ++ [(kLast, true)])
        = none := by
  induction rest with
  | nil => simp [sentKeys, finalKey, submitKey]
  | cons f tl ih =>
      simpa [sentKeys, finalKey, submitKey, List.replicate_succ] using ih

/-- Claim C1: in any sequence of create-form submissions in which every
attempt before the last fails and the last succeeds, all attempts (up to and
including the first successful one) send the same idempotency key — the one
generated at the first attempt — and after the success `resetForm` has
cleared the stored key, so a later submission uses its freshly generated
key. -/
theorem idempotency_key_reused_until_success (fails : List String) (kLast : String) :
    sentKeys none (fails.map (fun f => (f, false)) ++ [(kLast, true)])
        = List.replicate (fails.length + 1) (fails.headD kLast) ∧
      finalKey none (fails.map (fun f => (f, false)) ++ [(kLast, true)]) = none ∧
      ∀ fresh : String, submitKey none fresh = fresh := by
  cases fails with
  | nil => simp [sentKeys, finalKey, submitKey]
  | cons f tl =>
      have h := sentKeys_stored_run tl f kLast
      refine ⟨?_, ?_, fun fresh => rfl⟩
      · simpa [sentKeys, submitKey, List.replicate_succ] using h.1
      · simpa [finalKey, submitKey] using h.2

/-- Helper for C2: the running-total fold with an arbitrary accumulator. -/
theorem listTotal_fold (expenses : List Expense) (a : Rat) :
    expenses.foldl (fun sum e => sum + e.amount) a
      = a + (expenses.map Expense.amount).sum := by
  induction expenses generalizing a with
  | nil => simp
  | cons e tl ih => simp [ih, add_assoc]

/-- Helper for C2: the category-total fold with an arbitrary accumulator. -/
theorem categoryTotals_fold (expenses : List Expense) (acc : String → Rat)
    (c : String) :
    (expenses.foldl
        (fun acc e => fun x => if x = e.category then acc e.category + e.amount else acc x)
        acc) c
      = acc c + ((expenses.filter (fun e => e.category == c)).map Expense.amount).sum := by
  induction expenses generalizing acc with
  | nil => simp
  | cons e tl ih =>
      by_cases h : e.category = c
      · subst h
        simp [ih, add_assoc]
      · have h2 : ¬ c = e.category := fun hc => h hc.symm
        simp [ih, h, h2]

/-- Claim C2: the running total and category-total summary shown by the
expense list are computed over exactly the items of the currently returned
page: the total is the sum of their amounts, and the summary value at each
category `c` is the sum of the amounts of the page items whose category is
`c`. -/
theorem page_totals_cover_current_page_only (expenses : List Expense) (c : String) :
    listTotal expenses = (expenses.map Expense.amount).sum ∧
      categoryTotals expenses c
        = ((expenses.filter (fun e => e.category == c)).map Expense.amount).sum := by
  constructor
  · simpa [listTotal] using listTotal_fold expenses 0
  · simpa [categoryTotals] using categoryTotals_fold expenses (fun _ => 0) c

/-- Counterexample to claim C3: the claim says the pre-request amount
validation fails for `10.555`; in the code the check is only
`isNaN(amountNum) || amountNum <= 0`, so `10.555` (more than two fractional
digits) passes. -/
theorem amount_validation_accepts_10_555 : amountValid "10.555" = true := by
  decide

/-- Claim C3 (amended): the validation applied to the amount before a create
request is sent fails for `0` and `-5` and succeeds for `10.50` — but it
also succeeds for `10.555`, since the client checks only that the parsed
amount is a positive number and performs no fractional-digit (precision)
check. -/
theorem amount_validation_positive_only :
    amountValid "0" = false ∧ amountValid "-5" = false ∧
      amountValid "10.555" = true ∧ amountValid "10.50" = true := by
  refine ⟨by decide, by decide, by decide, by decide⟩

/-- Counterexample to claim C4: the claim says every update request carries a
non-empty trimmed description, validated before the mutation; but
`handleEditSubmit` validates only the amount, so submitting the edit form
with amount `"5"` and description `"   "` sends an update request whose
description is the empty string. -/
theorem edit_request_with_empty_description :
    (handleEditSubmitRequest ⟨"5", "Food", "   ", "2024-01-01"⟩).map
        (fun r => r.description) = some "" := by
  decide

/-- Claim C4 (amended): only the create path validates the description — a
create request always carries the trimmed, non-empty description; the edit
path sends the trimmed description without any validation (so an update
request may carry an empty, or arbitrarily long, description), and neither
submit handler checks the 500-character bound (the create form relies on the
input element's maxLength attribute alone). -/
theorem description_validated_on_create_path_only :
    (∀ amount category description date key req,
        handleSubmitRequest amount category description date key = some req →
          req.description = jsTrim description ∧ req.description ≠ "") ∧
      ∀ f r, handleEditSubmitRequest f = some r →
        r.description = jsTrim f.description := by
  constructor
  · intro a c d dt k req h
    unfold handleSubmitRequest at h
    split at h
    · exact absurd h (by simp)
    · split at h
      · exact absurd h (by simp)
      · split at h
        · exact absurd h (by simp)
        · next h2 =>
            split at h
            · exact absurd h (by simp)
            · cases h
              exact ⟨rfl, h2⟩
  · intro f r h
    unfold handleEditSubmitRequest at h
    split at h
    · exact absurd h (by simp)
    · split at h
      · exact absurd h (by simp)
      · cases h
        rfl

/-- Witness for C4 (amended): applied to the concrete form state with amount
`"5"` and description `" Lunch "`. -/
theorem description_validated_on_create_path_only_witness :
    ({ amount := mkRat 5 1, category := "Food", description := "Lunch",
        date := "2024-01-01", idempotency_key := some "k1" } :
          CreateExpenseInput).description = jsTrim " Lunch " ∧
      ({ amount := mkRat 5 1, category := "Food", description := "Lunch",
          date := "2024-01-01", idempotency_key := some "k1" } :
            CreateExpenseInput).description ≠ "" :=
  description_validated_on_create_path_only.1 "5" "Food" " Lunch " "2024-01-01"
    "k1"
    { amount := mkRat 5 1, category := "Food", description := "Lunch",
      date := "2024-01-01", idempotency_key := some "k1" } (by decide)

/-- Claim C5: `handleExportCSV` requests the unpaginated full set with the
same filter and sort as the current view — the query carries exactly the
current category (omitted when the filter is empty) and the current sort
order, and no page or limit parameter. -/
theorem export_uses_unpaginated_filter_sort (categoryFilter sortOrder : String)
    (hs : sortOrder = "date_desc" ∨ sortOrder = "date_asc") :
    searchParamsList (handleExportCSVParams categoryFilter sortOrder)
        = (if categoryFilter = "" then [] else [("category", categoryFilter)])
          ++ [("sort", sortOrder)] ∧
      (searchParamsList (handleExportCSVParams categoryFilter sortOrder)).all
          (fun kv => kv.1 != "page" && kv.1 != "limit") = true := by
  have hne : sortOrder ≠ "" := by
    rcases hs with h | h <;> subst h <;> decide
  refine ⟨?_, ?_⟩ <;> by_cases hc : categoryFilter = "" <;>
    simp [handleExportCSVParams, searchParamsList, hc, hne]

/-- Witness for C5: the current view filtered to Food, newest first. -/
theorem export_uses_unpaginated_filter_sort_witness :
    searchParamsList (handleExportCSVParams "Food" "date_desc")
      = [("category", "Food"), ("sort", "date_desc")] := by
  have h := export_uses_unpaginated_filter_sort "Food" "date_desc" (Or.inl rfl)
  simpa using h.1

/-- Claim C6: a 204 response resolves with no value without the body being
parsed (the 204 check precedes `response.json()`, and it fires even for an
unparseable body), and every non-ok response — 404 included — makes
`request` throw instead of returning a record. -/
theorem delete_noContent_and_404_throws (status : Nat) (body : Option ApiErrorBody) :
    (status = 204 → request status body = ReqOutcome.noContent) ∧
      (respOk status = false → isThrown (request status body) = true) := by
  constructor
  · intro h
    simp [request, h]
  · intro h
    have h204 : status ≠ 204 := by
      intro e
      rw [e] at h
      exact absurd h (by decide)
    cases body with
    | none => simp [request, h204, isThrown]
    | some d => simp [request, h204, h, isThrown]

/-- Witness for C6: a bodyless 204 and a 404 with a `Not found` body. -/
theorem delete_noContent_and_404_throws_witness :
    request 204 none = ReqOutcome.noContent ∧
      isThrown (request 404 (some { error := some "Not found", details := none }))
        = true :=
  ⟨(delete_noContent_and_404_throws 204 none).1 rfl,
   (delete_noContent_and_404_throws 404
      (some { error := some "Not found", details := none })).2 (by decide)⟩

/-- Counterexample to claim C7: the claim says that whenever the error body
has a non-empty `details` array the thrown message is exactly the elements
joined by a comma and space; but `details?.join(', ') || ...` treats a join
that produces the empty string as falsy, so for the non-empty array `[""]`
the thrown message is the `error` field instead of the joined string. -/
theorem nonempty_details_not_always_joined :
    ([""] : List String) ≠ [] ∧
      request 400 (some { error := some "boom", details := some [""] })
        = ReqOutcome.thrown "boom" ∧
      joinWith ", " [""] = "" ∧
      errorMessage { error := some "boom", details := some [""] }
        ≠ joinWith ", " [""] := by
  refine ⟨by decide, by decide, rfl, by decide⟩

/-- Claim C7 (amended): on a non-ok response the client throws
`errorMessage`; the message is the `details` elements joined by a comma and
space whenever that joined string is non-empty (in particular whenever
`details` is non-empty and no element chain joins to `""`); when `details`
is absent, empty, or joins to the empty string, the message is the `error`
field when that is a non-empty string, and `"Request failed"` when `error`
is absent or empty. -/
theorem error_details_surfacing (err : Option String) (ds : List String) (s : String) :
    (joinWith ", " ds ≠ "" →
        errorMessage { error := err, details := some ds } = joinWith ", " ds) ∧
      (joinWith ", " ds = "" → err = some s → s ≠ "" →
        errorMessage { error := err, details := some ds } = s) ∧
      (joinWith ", " ds = "" → (err = none ∨ err = some "") →
        errorMessage { error := err, details := some ds } = "Request failed") ∧
      (err = some s → s ≠ "" → errorMessage { error := err, details := none } = s) ∧
      ((err = none ∨ err = some "") →
        errorMessage { error := err, details := none } = "Request failed") ∧
      (∀ status : Nat, ∀ b : ApiErrorBody, respOk status = false →
        request status (some b) = ReqOutcome.thrown (errorMessage b)) := by
  refine ⟨?_, ?_, ?_, ?_, ?_, ?_⟩
  · intro h
    simp [errorMessage, orFalsy, h]
  · intro h he hs
    subst he
    simp [errorMessage, orFalsy, h, hs]
  · intro h he
    rcases he with he | he <;> subst he <;> simp [errorMessage, orFalsy, h]
  · intro he hs
    subst he
    simp [errorMessage, orFalsy, hs]
  · intro he
    rcases he with he | he <;> subst he <;> simp [errorMessage, orFalsy]
  · intro status b h
    have h204 : status ≠ 204 := by
      intro e
      rw [e] at h
      exact absurd h (by decide)
    simp [request, h204, h]

/-- Witness for C7 (amended): a body with `details = ["a", "b"]` joins to
`"a, b"`, which is what the client reports. -/
theorem error_details_surfacing_witness :
    errorMessage { error := some "boom", details := some ["a", "b"] }
      = joinWith ", " ["a", "b"] :=
  (error_details_surfacing (some "boom") ["a", "b"] "boom").1 (by decide)

/-- Claim C8: the category enumeration is a fixed set of exactly 8 values —
Food, Transport, Entertainment, Shopping, Bills, Healthcare, Education,
Other — and every category offered by the create form and by the edit form
is drawn from this set. -/
theorem categories_fixed_enum_of_eight :
    CATEGORIES = ["Food", "Transport", "Entertainment", "Shopping", "Bills",
      "Healthcare", "Education", "Other"] ∧
    CATEGORIES.length = 8 ∧
    expenseFormCategoryOptions.all (fun c => CATEGORIES.contains c) = true ∧
    editModalCategoryOptions.all (fun c => CATEGORIES.contains c) = true := by
  refine ⟨rfl, rfl, by decide, by decide⟩

/-- Helper: appending strings concatenates their character lists. -/
theorem toList_append (s t : String) : (s ++ t).toList = s.toList ++ t.toList := by
  cases s
  cases t
  rfl

/-- Helper: digit characters are digits. -/
theorem digitChar_isDigit : ∀ d, d < 10 → (digitChar d).isDigit = true := by
  decide

/-- Helper: every character produced by `natToRevDigits` is a digit. -/
theorem natToRevDigits_all_digits (fuel n : Nat) :
    (natToRevDigits fuel n).all Char.isDigit = true := by
  induction fuel generalizing n with
  | zero => rfl
  | succ f ih =>
      unfold natToRevDigits
      by_cases h : n = 0
      · simp [h]
      · have hd := digitChar_isDigit (n % 10) (Nat.mod_lt _ (by omega))
        simp [h, hd, ih]

/-- Helper: `natToStr` renders only digit characters. -/
theorem natToStr_all_digits (n : Nat) :
    (natToStr n).toList.all Char.isDigit = true := by
  unfold natToStr
  by_cases h : n = 0
  · rw [if_pos h]
    decide
  · rw [if_neg h]
    show ((natToRevDigits n n).reverse).all Char.isDigit = true
    rw [List.all_reverse]
    exact natToRevDigits_all_digits n n

/-- Helper: `pad2` of a cent remainder is two digit characters. -/
theorem pad2_two_digits : ∀ n, n < 100 →
    (pad2 n).length = 2 ∧ (pad2 n).toList.all Char.isDigit = true := by
  decide

/-- Helper: a list of digit characters also satisfies digit-or-minus. -/
theorem all_digit_or_minus (l : List Char) (hl : l.all Char.isDigit = true) :
    l.all (fun c => c.isDigit || c == '-') = true := by
  rw [List.all_eq_true] at hl ⊢
  intro c hc
  simp [hl c hc]

/-- Claim C9: `exportToCSV` builds exactly one header line
`Date,Description,Category,Amount (₹)` followed by one line per expense in
input order — date, the description wrapped in double quotes with every
embedded double quote doubled, the category, and the amount — and every
amount is rendered with exactly two fraction digits (the text after the
decimal point is two digit characters, and nothing before it is a decimal
point). -/
theorem export_csv_header_rows_and_two_decimals (expenses : List Expense) :
    exportToCSVText expenses
        = joinWith "\n" ("Date,Description,Category,Amount (₹)"
            :: expenses.map (fun e =>
              e.date ++ "," ++ ("\"" ++ e.description.replace "\"" "\"\"" ++ "\"")
                ++ "," ++ e.category ++ "," ++ toFixed2 e.amount)) ∧
      ∀ q : Rat, ∃ ip fp : String,
        toFixed2 q = ip ++ "." ++ fp ∧ fp.length = 2 ∧
          fp.toList.all Char.isDigit = true ∧
          ip.toList.all (fun c => c.isDigit || c == '-') = true := by
  constructor
  · have hrow : ∀ e : Expense, joinWith "," (csvRow e)
        = e.date ++ "," ++ ("\"" ++ e.description.replace "\"" "\"\"" ++ "\"")
          ++ "," ++ e.category ++ "," ++ toFixed2 e.amount := by
      intro e
      simp [csvRow, joinWith, String.append_assoc]
    have hhead : joinWith "," csvHeaders
        = "Date,Description,Category,Amount (₹)" := by
      decide
    simp [exportToCSVText, hrow, hhead]
  · intro q
    refine ⟨(if q.num < 0 then "-" else "")
        ++ natToStr ((q.num.natAbs * 200 + q.den) / (2 * q.den) / 100),
      pad2 ((q.num.natAbs * 200 + q.den) / (2 * q.den) % 100), rfl,
      (pad2_two_digits _ (Nat.mod_lt _ (by omega))).1,
      (pad2_two_digits _ (Nat.mod_lt _ (by omega))).2, ?_⟩
    have h2 := all_digit_or_minus _
      (natToStr_all_digits ((q.num.natAbs * 200 + q.den) / (2 * q.den) / 100))
    by_cases hq : q.num < 0
    · rw [if_pos hq, toList_append, List.all_append, Bool.and_eq_true]
      exact ⟨by decide, h2⟩
    · rw [if_neg hq, toList_append, List.all_append, Bool.and_eq_true]
      exact ⟨by decide, h2⟩

/-- Claim C10: `getExpenses` omits every query parameter whose value is
falsy — the query carries `category`, `sort`, `page`, `limit` exactly when
the corresponding value is present and truthy (`""` for strings and `0` for
numbers are falsy), and with no parameter set the endpoint is exactly
`/expenses`. -/
theorem get_expenses_omits_falsy_params (p : GetExpensesParams) :
    (searchParamsList p).map Prod.fst
        = (if jsTruthyS p.category then ["category"] else [])
          ++ (if jsTruthyS p.sort then ["sort"] else [])
          ++ (if jsTruthyN p.page then ["page"] else [])
          ++ (if jsTruthyN p.limit then ["limit"] else []) ∧
      getExpensesEndpoint ⟨none, none, none, none⟩ = "/expenses" := by
  obtain ⟨c, s, pg, l⟩ := p
  refine ⟨?_, by decide⟩
  cases c <;> cases s <;> cases pg <;> cases l <;>
      simp [searchParamsList, jsTruthyS, jsTruthyN] <;>
    split_ifs <;> simp_all

end ExpenseFrontend
